import Mathlib

/-!
Shallow embedding of `src/ObjectLifetimeManagement.cpp`: class `A` (the
spec's "Buffer") owning a dynamically sized integer array (`int* data`,
`int size`), with the constructors, assignment operators, conversion
operator and destructor the source defines.

Pointers are modelled as addresses (`Nat`); the heap maps an address to
the block contents stored there and tracks which blocks are currently
allocated, with a fresh-address counter.  Allocation failure (`new`
throwing, the spec's `OutOfMemory`) is modelled by a `canAlloc` flag
passed to every operation that may call `new`.  Object identity in the
self-assignment checks (`this != &other`) is modelled by a `sameObject`
flag: when it is true the two buffer arguments denote one object.
-/

/-- The class `A` of the source: `int* data` (an optional address) and
`int size`. -/
structure Buffer where
  data : Option Nat
  size : Int

/-- Heap: contents of each block, which blocks are live, next fresh address. -/
structure Heap where
  mem : Nat → List Int
  live : Nat → Bool
  next : Nat

/-- The spec's single error kind. -/
inductive Err where
  | OutOfMemory

/-- The empty heap (no block allocated). -/
def Heap.empty : Heap :=
  { mem := fun _ => [], live := fun _ => false, next := 0 }

/-- Model of `delete[] data`: releasing a null pointer is a no-op,
releasing a block marks it dead (its stale contents remain readable,
as memory does). -/
def Heap.free (h : Heap) (p : Option Nat) : Heap :=
  match p with
  | none => h
  | some a => { h with live := fun x => if x = a then false else h.live x }

/-- Model of `new int[n]` together with initializing the block to the
given contents: returns the fresh address and the updated heap. -/
def Heap.alloc (h : Heap) (contents : List Int) : Nat × Heap :=
  (h.next,
   { mem := fun x => if x = h.next then contents else h.mem x,
     live := fun x => if x = h.next then true else h.live x,
     next := h.next + 1 })

/-- Contents reachable through a pointer (null reads as the empty list). -/
def Heap.read (h : Heap) (p : Option Nat) : List Int :=
  match p with
  | none => []
  | some a => h.mem a

/-- Model of `data[i] = v` on the block a pointer designates. -/
def Heap.write (h : Heap) (p : Option Nat) (i : Nat) (v : Int) : Heap :=
  match p with
  | none => h
  | some a => { h with mem := fun x => if x = a then (h.mem a).set i v else h.mem x }

/-- `A::A()` — default constructor: member initializers `data = nullptr`,
`size = 0`. -/
def defaultCtor : Buffer :=
  { data := none, size := 0 }

/-- `A::A(int size)` — the spec's `withLength`: member `size` is set to the
argument; if `size > 0` a block of `size` zero-initialized integers is
allocated, else `data = nullptr` (the member `size` keeps the argument,
negative values included). -/
def paramCtor (canAlloc : Bool) (size : Int) (h : Heap) : Except Err (Buffer × Heap) :=
  if 0 < size then
    if canAlloc then
      .ok ({ data := some (h.alloc (List.replicate size.toNat 0)).1, size := size },
        (h.alloc (List.replicate size.toNat 0)).2)
    else
      .error .OutOfMemory
  else
    .ok ({ data := none, size := size }, h)

/-- Truncation toward zero, the semantics of `static_cast<int>(d)` for a
`double` argument. -/
def truncQ (d : Rat) : Int :=
  if d < 0 then ⌈d⌉ else ⌊d⌋

/-- `A::A(double d)` — the spec's `fromNumeric`: `size = static_cast<int>(d)`,
then the same body as the `int` constructor. -/
def convCtor (canAlloc : Bool) (d : Rat) (h : Heap) : Except Err (Buffer × Heap) :=
  if 0 < truncQ d then
    if canAlloc then
      .ok ({ data := some (h.alloc (List.replicate (truncQ d).toNat 0)).1, size := truncQ d },
        (h.alloc (List.replicate (truncQ d).toNat 0)).2)
    else
      .error .OutOfMemory
  else
    .ok ({ data := none, size := truncQ d }, h)

/-- `A::operator int() const` — the spec's `toNumeric`: returns `size`. -/
def toNumeric (b : Buffer) : Int :=
  b.size

/-- `A::A(const A& other)` — copy constructor: `size = other.size`; if
positive, allocate a fresh block and `memcpy` `size` integers from
`other.data`, else `data = nullptr`. -/
def copyCtor (canAlloc : Bool) (other : Buffer) (h : Heap) : Except Err (Buffer × Heap) :=
  if 0 < other.size then
    if canAlloc then
      .ok ({ data := some (h.alloc ((h.read other.data).take other.size.toNat)).1,
             size := other.size },
        (h.alloc ((h.read other.data).take other.size.toNat)).2)
    else
      .error .OutOfMemory
  else
    .ok ({ data := none, size := other.size }, h)

/-- `A::A(A&& other)` — move constructor: the fresh object's members start
at their initializers (`nullptr`, `0`); it saves its own members, takes
`other`'s, and hands its saved members to `other` (a swap).  Returns
(new object, `other` afterwards); the heap is untouched. -/
def moveCtor (other : Buffer) : Buffer × Buffer :=
  let tmp_size : Int := 0
  let tmp_data : Option Nat := none
  let self : Buffer := { data := other.data, size := other.size }
  let other2 : Buffer := { data := tmp_data, size := tmp_size }
  (self, other2)

/-- `A::operator=(const A& other)` — copy assignment: if `this != &other`,
release the current block, set `size = other.size`, and if positive
allocate a fresh block and `memcpy` the contents, else `data = nullptr`.
Returns (`*this`, heap). -/
def copyAssign (canAlloc : Bool) (sameObject : Bool) (self other : Buffer) (h : Heap) :
    Except Err (Buffer × Heap) :=
  if sameObject then
    .ok (self, h)
  else
    if 0 < other.size then
      if canAlloc then
        .ok ({ data :=
                 some ((h.free self.data).alloc
                   (((h.free self.data).read other.data).take other.size.toNat)).1,
               size := other.size },
          ((h.free self.data).alloc
            (((h.free self.data).read other.data).take other.size.toNat)).2)
      else
        .error .OutOfMemory
    else
      .ok ({ data := none, size := other.size }, h.free self.data)

/-- `A::operator=(A&& other)` — move assignment: self-assignment returns
immediately; otherwise the two objects exchange `size` and `data` (a
swap).  Returns (`*this` afterwards, `other` afterwards); heap untouched. -/
def moveAssign (sameObject : Bool) (self other : Buffer) : Buffer × Buffer :=
  if sameObject then
    (self, other)
  else
    let tmp_size := self.size
    let tmp_data := self.data
    let self2 : Buffer := { data := other.data, size := other.size }
    let other2 : Buffer := { data := tmp_data, size := tmp_size }
    (self2, other2)

/-- `A::~A()` — destructor: `delete[] data`. -/
def dtor (b : Buffer) (h : Heap) : Heap :=
  h.free b.data

/-- Well-formedness of a buffer in a heap, as the code maintains it: a null
`data` goes with `size ≤ 0`; a non-null `data` goes with `size > 0` and
designates a live block below the fresh counter whose stored contents
have exactly `size` elements. -/
def Buffer.wf (b : Buffer) (h : Heap) : Bool :=
  match b.data with
  | none => decide (b.size ≤ 0)
  | some a =>
      decide (0 < b.size) && decide (a < h.next) && h.live a &&
        decide ((h.mem a).length = b.size.toNat)

/-- The invariant exactly as the spec words it: `length` is non-negative,
storage is non-empty iff `length > 0`, and the storage size equals
`length`. -/
def Buffer.specInv (b : Buffer) (h : Heap) : Bool :=
  decide (0 ≤ b.size) &&
    (match b.data with
     | none => decide (b.size = 0)
     | some a => decide (0 < b.size) && decide ((h.mem a).length = b.size.toNat))

/-- A successful operation result satisfies the well-formedness predicate
(errors vacuously pass). -/
def resultWf (r : Except Err (Buffer × Heap)) : Bool :=
  match r with
  | .error _ => true
  | .ok p => p.1.wf p.2

/-- An operation result that is not an error. -/
def opOk (r : Except Err (Buffer × Heap)) : Bool :=
  match r with
  | .ok _ => true
  | .error _ => false

theorem Heap.mem_free (h : Heap) (p : Option Nat) : (h.free p).mem = h.mem := by
  cases p <;> rfl

theorem Heap.read_free (h : Heap) (p q : Option Nat) : (h.free p).read q = h.read q := by
  cases q with
  | none => rfl
  | some a => exact congrFun (Heap.mem_free h p) a

theorem Heap.read_alloc_new (h : Heap) (l : List Int) :
    (h.alloc l).2.read (some h.next) = l :=
  if_pos rfl

theorem Heap.read_alloc_old (h : Heap) (l : List Int) (a : Nat) (hne : a ≠ h.next) :
    (h.alloc l).2.read (some a) = h.read (some a) :=
  if_neg hne

theorem Heap.mem_alloc_new (h : Heap) (l : List Int) : (h.alloc l).2.mem h.next = l :=
  if_pos rfl

theorem Heap.mem_alloc_old (h : Heap) (l : List Int) (a : Nat) (hne : a ≠ h.next) :
    (h.alloc l).2.mem a = h.mem a :=
  if_neg hne

theorem Heap.live_alloc_new (h : Heap) (l : List Int) : (h.alloc l).2.live h.next = true :=
  if_pos rfl

theorem Heap.live_alloc_old (h : Heap) (l : List Int) (a : Nat) (hne : a ≠ h.next) :
    (h.alloc l).2.live a = h.live a :=
  if_neg hne

theorem Heap.read_write_ne (h : Heap) (x a : Nat) (i : Nat) (v : Int) (hne : a ≠ x) :
    (h.write (some x) i v).read (some a) = h.read (some a) :=
  if_neg hne

theorem wf_none_intro (s : Int) (h : Heap) (hs : s ≤ 0) :
    Buffer.wf { data := none, size := s } h = true :=
  decide_eq_true hs

theorem wf_none_elim (s : Int) (h : Heap)
    (hw : Buffer.wf { data := none, size := s } h = true) : s ≤ 0 :=
  of_decide_eq_true hw

theorem and4_intro (w x y z : Bool) (h1 : w = true) (h2 : x = true) (h3 : y = true)
    (h4 : z = true) : (w && x && y && z) = true := by
  subst h1 h2 h3 h4
  rfl

theorem and4_elim (w x y z : Bool) (hq : (w && x && y && z) = true) :
    w = true ∧ x = true ∧ y = true ∧ z = true := by
  have p1 := (Bool.and_eq_true _ _).mp hq
  have p2 := (Bool.and_eq_true _ _).mp p1.1
  have p3 := (Bool.and_eq_true _ _).mp p2.1
  exact ⟨p3.1, p3.2, p2.2, p1.2⟩

theorem wf_some_intro (a : Nat) (s : Int) (h : Heap) (h1 : 0 < s) (h2 : a < h.next)
    (h3 : h.live a = true) (h4 : (h.mem a).length = s.toNat) :
    Buffer.wf { data := some a, size := s } h = true :=
  and4_intro _ _ _ _ (decide_eq_true h1) (decide_eq_true h2) h3 (decide_eq_true h4)

theorem wf_some_elim (a : Nat) (s : Int) (h : Heap)
    (hw : Buffer.wf { data := some a, size := s } h = true) :
    0 < s ∧ a < h.next ∧ h.live a = true ∧ (h.mem a).length = s.toNat := by
  obtain ⟨e1, e2, e3, e4⟩ := and4_elim _ _ _ _ hw
  exact ⟨of_decide_eq_true e1, of_decide_eq_true e2, e3, of_decide_eq_true e4⟩

theorem wf_data_eq_none (b : Buffer) (h : Heap) (hb : b.wf h = true) (hn : ¬ 0 < b.size) :
    b.data = none := by
  obtain ⟨bd, bs⟩ := b
  cases bd with
  | none => rfl
  | some a => exact absurd (wf_some_elim a bs h hb).1 hn

theorem wf_pos_data (b : Buffer) (h : Heap) (hb : b.wf h = true) (hn : 0 < b.size) :
    ∃ a, b.data = some a ∧ a < h.next ∧ h.live a = true ∧
      (h.mem a).length = b.size.toNat := by
  obtain ⟨bd, bs⟩ := b
  cases bd with
  | none => exact absurd hn (not_lt.mpr (wf_none_elim bs h hb))
  | some a =>
      obtain ⟨_, h2, h3, h4⟩ := wf_some_elim a bs h hb
      exact ⟨a, rfl, h2, h3, h4⟩

theorem wf_read_length (b : Buffer) (h : Heap) (hb : b.wf h = true) (hn : 0 < b.size) :
    (h.read b.data).length = b.size.toNat := by
  obtain ⟨a, hd, _, _, hlen⟩ := wf_pos_data b h hb hn
  rw [hd]
  exact hlen

theorem copyAssign_false (canAlloc : Bool) (c b : Buffer) (h : Heap) :
    copyAssign canAlloc false c b h = copyCtor canAlloc b (h.free c.data) :=
  rfl

theorem paramCtor_pos_true (n : Int) (h : Heap) (hn : 0 < n) :
    paramCtor true n h =
      .ok ({ data := some h.next, size := n }, (h.alloc (List.replicate n.toNat 0)).2) := by
  rw [paramCtor, if_pos hn]
  rfl

theorem paramCtor_pos_false (n : Int) (h : Heap) (hn : 0 < n) :
    paramCtor false n h = .error .OutOfMemory := by
  rw [paramCtor, if_pos hn]
  rfl

theorem paramCtor_nonpos (canAlloc : Bool) (n : Int) (h : Heap) (hn : ¬ 0 < n) :
    paramCtor canAlloc n h = .ok ({ data := none, size := n }, h) := by
  rw [paramCtor, if_neg hn]

theorem copyCtor_pos_true (b : Buffer) (h : Heap) (hn : 0 < b.size) :
    copyCtor true b h =
      .ok ({ data := some h.next, size := b.size },
        (h.alloc ((h.read b.data).take b.size.toNat)).2) := by
  rw [copyCtor, if_pos hn]
  rfl

theorem copyCtor_pos_false (b : Buffer) (h : Heap) (hn : 0 < b.size) :
    copyCtor false b h = .error .OutOfMemory := by
  rw [copyCtor, if_pos hn]
  rfl

theorem copyCtor_nonpos (canAlloc : Bool) (b : Buffer) (h : Heap) (hn : ¬ 0 < b.size) :
    copyCtor canAlloc b h = .ok ({ data := none, size := b.size }, h) := by
  rw [copyCtor, if_neg hn]

theorem wf_alloc (h : Heap) (l : List Int) (n : Int) (hn : 0 < n)
    (hl : l.length = n.toNat) :
    Buffer.wf { data := some h.next, size := n } (h.alloc l).2 = true := by
  refine wf_some_intro h.next n (h.alloc l).2 hn (Nat.lt_succ_self h.next)
    (Heap.live_alloc_new h l) ?_
  rw [Heap.mem_alloc_new]
  exact hl

theorem resultWf_paramCtor (canAlloc : Bool) (n : Int) (h : Heap) :
    resultWf (paramCtor canAlloc n h) = true := by
  by_cases hn : 0 < n
  · cases canAlloc
    · rw [paramCtor_pos_false n h hn]
      rfl
    · rw [paramCtor_pos_true n h hn]
      exact wf_alloc h _ n hn (List.length_replicate n.toNat 0)
  · rw [paramCtor_nonpos canAlloc n h hn]
    exact decide_eq_true (not_lt.mp hn)

theorem resultWf_convCtor (canAlloc : Bool) (d : Rat) (h : Heap) :
    resultWf (convCtor canAlloc d h) = true :=
  resultWf_paramCtor canAlloc (truncQ d) h

theorem resultWf_copyCtor_len (canAlloc : Bool) (b : Buffer) (h : Heap)
    (hlen : 0 < b.size → (h.read b.data).length = b.size.toNat) :
    resultWf (copyCtor canAlloc b h) = true := by
  by_cases hn : 0 < b.size
  · cases canAlloc
    · rw [copyCtor_pos_false b h hn]
      rfl
    · rw [copyCtor_pos_true b h hn]
      refine wf_alloc h _ b.size hn ?_
      rw [List.length_take, hlen hn]
      exact Nat.min_self _
  · rw [copyCtor_nonpos canAlloc b h hn]
    exact decide_eq_true (not_lt.mp hn)

theorem resultWf_copyCtor (canAlloc : Bool) (b : Buffer) (h : Heap)
    (hb : b.wf h = true) : resultWf (copyCtor canAlloc b h) = true :=
  resultWf_copyCtor_len canAlloc b h (fun hn => wf_read_length b h hb hn)

theorem resultWf_copyAssign (canAlloc sameObject : Bool) (c b : Buffer) (h : Heap)
    (hb : b.wf h = true) (hc : c.wf h = true) :
    resultWf (copyAssign canAlloc sameObject c b h) = true := by
  cases sameObject
  · rw [copyAssign_false]
    refine resultWf_copyCtor_len canAlloc b _ (fun hn => ?_)
    rw [Heap.read_free]
    exact wf_read_length b h hb hn
  · exact hc

/-- C1: move-assigning `b` into a distinct `c` swaps the two objects'
states: `c` ends with `b`'s original length and (pointer, hence heap
contents), `b` ends with `c`'s previous length and storage; likewise
move-construction from `b` gives the new object `b`'s original state and
hands `b` the fresh object's previous (default-initialized, empty) state.
The heap is untouched, so contents follow the pointers. -/
theorem c1_move_swap_semantics (c b : Buffer) (h : Heap) :
    moveAssign false c b = ({ data := b.data, size := b.size }, { data := c.data, size := c.size }) ∧
    h.read (moveAssign false c b).1.data = h.read b.data ∧
    (moveAssign false c b).1.size = b.size ∧
    h.read (moveAssign false c b).2.data = h.read c.data ∧
    (moveAssign false c b).2.size = c.size ∧
    moveCtor b = ({ data := b.data, size := b.size }, defaultCtor) :=
  ⟨rfl, rfl, rfl, rfl, rfl, rfl⟩

/-- C2 counterexample: `withLength (-1)` is not observably equivalent to
`empty()` — it allocates nothing but keeps length `-1`, so `toNumeric`
returns `-1`, not `0`. -/
theorem c2_withLength_nonpos_counterexample :
    paramCtor true (-1) Heap.empty = .ok ({ data := none, size := -1 }, Heap.empty) ∧
    toNumeric { data := none, size := -1 } = -1 ∧ ((-1 : Int) ≠ 0) :=
  ⟨rfl, rfl, fun hcon => absurd hcon (by decide)⟩

/-- C2 amended: for every n ≤ 0, `withLength n` allocates no storage and
leaves the heap unchanged, but keeps length `n` (so `toNumeric` returns
`n`); it coincides with `empty()` exactly when n = 0. -/
theorem c2_withLength_nonpos (canAlloc : Bool) (n : Int) (h : Heap) (hn : n ≤ 0) :
    paramCtor canAlloc n h = .ok ({ data := none, size := n }, h) ∧
    toNumeric { data := none, size := n } = n ∧
    (n = 0 → ({ data := none, size := n } : Buffer) = defaultCtor) := by
  refine ⟨paramCtor_nonpos canAlloc n h (not_lt.mpr hn), rfl, fun h0 => ?_⟩
  rw [h0]
  rfl

/-- Witness for C2 amended at n = -2. -/
theorem c2_withLength_nonpos_witness :
    ((-2 : Int) ≤ 0) ∧
    (paramCtor true (-2) Heap.empty = .ok ({ data := none, size := -2 }, Heap.empty) ∧
     toNumeric { data := none, size := -2 } = -2 ∧
     ((-2 : Int) = 0 → ({ data := none, size := -2 } : Buffer) = defaultCtor)) :=
  ⟨by decide, c2_withLength_nonpos true (-2) Heap.empty (by decide)⟩

/-- C4: for n > 0, `withLength n` yields a buffer (when allocation works) with
length exactly n and contents a block of n zeros. -/
theorem c4_withLength_pos (n : Int) (h : Heap) (hn : 0 < n) :
    (paramCtor true n h).map (fun p => (p.1.size, p.2.read p.1.data)) =
      .ok (n, List.replicate n.toNat 0) := by
  rw [paramCtor_pos_true n h hn]
  show Except.ok ((n : Int), (h.alloc (List.replicate n.toNat 0)).2.read (some h.next)) =
    Except.ok (n, List.replicate n.toNat 0)
  rw [Heap.read_alloc_new]

/-- Witness for C4 at n = 2. -/
theorem c4_withLength_pos_witness :
    ((0 : Int) < 2) ∧
    (paramCtor true 2 Heap.empty).map (fun p => (p.1.size, p.2.read p.1.data)) =
      .ok (2, List.replicate (2 : Int).toNat 0) :=
  ⟨by decide, c4_withLength_pos 2 Heap.empty (by decide)⟩

/-- C5: `fromNumeric d` and `withLength (truncate d)` are the same
operation — identical result buffer, heap, or error — for every numeric
argument, allocator behavior and starting heap. -/
theorem c5_fromNumeric_eq_withLength (canAlloc : Bool) (d : Rat) (h : Heap) :
    convCtor canAlloc d h = paramCtor canAlloc (truncQ d) h :=
  rfl

/-- C7: self-assignment is a no-op: copy-assigning a buffer to itself
returns the buffer and the heap unchanged (no release, no allocation),
and move-assigning a buffer to itself likewise changes nothing. -/
theorem c7_self_assignment_noop (canAlloc : Bool) (b : Buffer) (h : Heap) :
    copyAssign canAlloc true b b h = .ok (b, h) ∧ moveAssign true b b = (b, b) :=
  ⟨rfl, rfl⟩

/-- C8: the conversion to numeric returns exactly the buffer's current
length; it is a pure function of the buffer. -/
theorem c8_toNumeric_returns_length (b : Buffer) :
    toNumeric b = b.size :=
  rfl

/-- C10: move-construction always leaves the source in the empty state
(null storage, length 0), equal to a default-constructed buffer, because
the fresh destination's members are default-initialized before the swap;
move-assignment, by contrast, does not always empty its source. -/
theorem c10_moveCtor_source_empty (b : Buffer) :
    moveCtor b = ({ data := b.data, size := b.size }, defaultCtor) ∧
    (moveCtor b).2.size = 0 ∧ (moveCtor b).2.data = none ∧
    (moveAssign false { data := some 0, size := 3 } b).2 ≠ defaultCtor :=
  ⟨rfl, rfl, rfl, fun hcon => Option.noConfusion (congrArg Buffer.data hcon)⟩

/-- C3 counterexample: the constructor reached with a negative argument
leaves a buffer with negative length (storage null), violating the
spec's invariant that length is non-negative and storage size equals
length. -/
theorem c3_invariant_counterexample :
    paramCtor true (-3) Heap.empty = .ok ({ data := none, size := -3 }, Heap.empty) ∧
    Buffer.specInv { data := none, size := -3 } Heap.empty = false :=
  ⟨rfl, rfl⟩

/-- C3 amended: every operation preserves the invariant the code actually
maintains: storage is non-null iff length > 0, and when positive the
storage size equals the length; a null-storage buffer may carry any
non-positive length (so length is not necessarily non-negative). -/
theorem c3_invariant_preserved (canAlloc sameObject : Bool) (n : Int) (d : Rat)
    (b c : Buffer) (h : Heap) (hb : b.wf h = true) (hc : c.wf h = true) :
    defaultCtor.wf h = true ∧
    resultWf (paramCtor canAlloc n h) = true ∧
    resultWf (convCtor canAlloc d h) = true ∧
    resultWf (copyCtor canAlloc b h) = true ∧
    resultWf (copyAssign canAlloc sameObject c b h) = true ∧
    (moveCtor b).1.wf h = true ∧
    (moveCtor b).2.wf h = true ∧
    (moveAssign sameObject c b).1.wf h = true ∧
    (moveAssign sameObject c b).2.wf h = true := by
  refine ⟨rfl, resultWf_paramCtor canAlloc n h, resultWf_convCtor canAlloc d h,
    resultWf_copyCtor canAlloc b h hb, resultWf_copyAssign canAlloc sameObject c b h hb hc,
    hb, rfl, ?_, ?_⟩
  · cases sameObject
    · exact hb
    · exact hc
  · cases sameObject
    · exact hc
    · exact hb

/-- Witness for C3 amended on concrete well-formed buffers. -/
theorem c3_invariant_preserved_witness :
    Buffer.wf { data := none, size := 0 } Heap.empty = true ∧
    Buffer.wf { data := none, size := -1 } Heap.empty = true ∧
    (defaultCtor.wf Heap.empty = true ∧
     resultWf (paramCtor true 1 Heap.empty) = true ∧
     resultWf (convCtor true 0 Heap.empty) = true ∧
     resultWf (copyCtor true { data := none, size := 0 } Heap.empty) = true ∧
     resultWf (copyAssign true false { data := none, size := -1 }
       { data := none, size := 0 } Heap.empty) = true ∧
     (moveCtor { data := none, size := 0 }).1.wf Heap.empty = true ∧
     (moveCtor { data := none, size := 0 }).2.wf Heap.empty = true ∧
     (moveAssign false { data := none, size := -1 } { data := none, size := 0 }).1.wf
       Heap.empty = true ∧
     (moveAssign false { data := none, size := -1 } { data := none, size := 0 }).2.wf
       Heap.empty = true) :=
  ⟨by decide, by decide,
    c3_invariant_preserved true false 1 0 { data := none, size := 0 }
      { data := none, size := -1 } Heap.empty (by decide) (by decide)⟩

/-- C6: copy-construction yields a buffer of the same length whose heap
contents equal the original's; the original's fields and heap contents
are untouched and stay well-formed; the copy's storage is a distinct
block whenever there is storage; and writing any index of the copy's
block leaves the original's contents unchanged. -/
theorem c6_copy_deep (b c : Buffer) (h h2 : Heap) (i : Nat) (v : Int)
    (hb : b.wf h = true) (heq : copyCtor true b h = .ok (c, h2)) :
    c.size = b.size ∧
    h2.read c.data = h.read b.data ∧
    h2.read b.data = h.read b.data ∧
    b.wf h2 = true ∧
    (0 < b.size → c.data ≠ b.data) ∧
    (h2.write c.data i v).read b.data = h2.read b.data := by
  obtain ⟨bd, bs⟩ := b
  by_cases hn : 0 < bs
  · cases bd with
    | none => exact absurd hn (not_lt.mpr (wf_none_elim bs h hb))
    | some a =>
        obtain ⟨hs, hlt, hlive, hlen⟩ := wf_some_elim a bs h hb
        have hane : a ≠ h.next := Nat.ne_of_lt hlt
        rw [copyCtor_pos_true { data := some a, size := bs } h hn] at heq
        injection heq with heq
        injection heq with hc hh
        subst hc
        subst hh
        refine ⟨rfl, ?_, ?_, ?_, fun _ hcon => hane (Option.some.inj hcon).symm, ?_⟩
        · show (h.alloc ((h.mem a).take bs.toNat)).2.read (some h.next) = h.read (some a)
          rw [Heap.read_alloc_new]
          exact List.take_of_length_le (le_of_eq hlen)
        · exact Heap.read_alloc_old h _ a hane
        · refine wf_some_intro a bs _ hs (Nat.lt_succ_of_lt hlt) ?_ ?_
          · rw [Heap.live_alloc_old h _ a hane]
            exact hlive
          · rw [Heap.mem_alloc_old h _ a hane]
            exact hlen
        · exact Heap.read_write_ne _ h.next a i v hane
  · have hd : bd = none := by
      cases bd with
      | none => rfl
      | some a => exact absurd (wf_some_elim a bs h hb).1 hn
    subst hd
    rw [copyCtor_nonpos true { data := none, size := bs } h hn] at heq
    injection heq with heq
    injection heq with hc hh
    subst hc
    subst hh
    exact ⟨rfl, rfl, rfl, hb, fun hpos => absurd hpos hn, rfl⟩

/-- A one-block heap holding [7] at address 0, for concrete checks. -/
def hW1 : Heap := (Heap.alloc Heap.empty [7]).2

/-- The heap after copy-constructing from the buffer at address 0 of `hW1`. -/
def hW2 : Heap := (hW1.alloc ((hW1.read (some 0)).take (1 : Int).toNat)).2

/-- Witness for C6 on a length-1 buffer holding [7]. -/
theorem c6_copy_deep_witness :
    Buffer.wf { data := some 0, size := 1 } hW1 = true ∧
    copyCtor true { data := some 0, size := 1 } hW1 =
      .ok ({ data := some 1, size := 1 }, hW2) ∧
    (({ data := some 1, size := 1 } : Buffer).size =
        ({ data := some 0, size := 1 } : Buffer).size ∧
      hW2.read ({ data := some 1, size := 1 } : Buffer).data =
        hW1.read ({ data := some 0, size := 1 } : Buffer).data ∧
      hW2.read ({ data := some 0, size := 1 } : Buffer).data =
        hW1.read ({ data := some 0, size := 1 } : Buffer).data ∧
      Buffer.wf { data := some 0, size := 1 } hW2 = true ∧
      (0 < ({ data := some 0, size := 1 } : Buffer).size →
        ({ data := some 1, size := 1 } : Buffer).data ≠
          ({ data := some 0, size := 1 } : Buffer).data) ∧
      (hW2.write ({ data := some 1, size := 1 } : Buffer).data 0 5).read
          ({ data := some 0, size := 1 } : Buffer).data =
        hW2.read ({ data := some 0, size := 1 } : Buffer).data) :=
  ⟨by decide, rfl,
    c6_copy_deep { data := some 0, size := 1 } { data := some 1, size := 1 }
      hW1 hW2 0 5 (by decide) rfl⟩

theorem paramCtor_error_canAlloc (canAlloc : Bool) (n : Int) (h : Heap) (e : Err)
    (he : paramCtor canAlloc n h = .error e) : canAlloc = false := by
  cases canAlloc
  · rfl
  · by_cases hn : 0 < n
    · rw [paramCtor_pos_true n h hn] at he
      exact Except.noConfusion he
    · rw [paramCtor_nonpos true n h hn] at he
      exact Except.noConfusion he

theorem copyCtor_error_canAlloc (canAlloc : Bool) (b : Buffer) (h : Heap) (e : Err)
    (he : copyCtor canAlloc b h = .error e) : canAlloc = false := by
  cases canAlloc
  · rfl
  · by_cases hn : 0 < b.size
    · rw [copyCtor_pos_true b h hn] at he
      exact Except.noConfusion he
    · rw [copyCtor_nonpos true b h hn] at he
      exact Except.noConfusion he

theorem copyAssign_error_canAlloc (canAlloc sameObject : Bool) (c b : Buffer) (h : Heap)
    (e : Err) (he : copyAssign canAlloc sameObject c b h = .error e) : canAlloc = false := by
  cases sameObject
  · rw [copyAssign_false] at he
    exact copyCtor_error_canAlloc canAlloc b (h.free c.data) e he
  · exact Except.noConfusion he

theorem opOk_paramCtor_true (n : Int) (h : Heap) :
    opOk (paramCtor true n h) = true := by
  cases hp : paramCtor true n h with
  | ok p => rfl
  | error e => exact Bool.noConfusion (paramCtor_error_canAlloc true n h e hp)

theorem opOk_copyCtor_true (b : Buffer) (h : Heap) :
    opOk (copyCtor true b h) = true := by
  cases hp : copyCtor true b h with
  | ok p => rfl
  | error e => exact Bool.noConfusion (copyCtor_error_canAlloc true b h e hp)

theorem opOk_copyAssign_true (sameObject : Bool) (c b : Buffer) (h : Heap) :
    opOk (copyAssign true sameObject c b h) = true := by
  cases sameObject
  · rw [copyAssign_false]
    exact opOk_copyCtor_true b (h.free c.data)
  · rfl

/-- C9: when any of the allocating operations (length construction,
numeric construction, copy construction, copy assignment) fails, the
error is `OutOfMemory` and the cause is allocation failure; with a
working allocator each of them returns a value.  The remaining operations
(`defaultCtor`, `moveCtor`, `moveAssign`, `toNumeric`, `dtor`) are plain
total functions of the model and cannot fail. -/
theorem c9_failure_modes (canAlloc sameObject : Bool) (n : Int) (d : Rat)
    (b c : Buffer) (h : Heap) (e : Err)
    (hfail : paramCtor canAlloc n h = .error e ∨ convCtor canAlloc d h = .error e ∨
      copyCtor canAlloc b h = .error e ∨ copyAssign canAlloc sameObject c b h = .error e) :
    e = .OutOfMemory ∧ canAlloc = false ∧
    opOk (paramCtor true n h) = true ∧
    opOk (convCtor true d h) = true ∧
    opOk (copyCtor true b h) = true ∧
    opOk (copyAssign true sameObject c b h) = true := by
  refine ⟨by cases e; rfl, ?_, opOk_paramCtor_true n h,
    opOk_paramCtor_true (truncQ d) h, opOk_copyCtor_true b h,
    opOk_copyAssign_true sameObject c b h⟩
  rcases hfail with he | he | he | he
  · exact paramCtor_error_canAlloc canAlloc n h e he
  · exact paramCtor_error_canAlloc canAlloc (truncQ d) h e he
  · exact copyCtor_error_canAlloc canAlloc b h e he
  · exact copyAssign_error_canAlloc canAlloc sameObject c b h e he

/-- Witness for C9: a failed allocation in `withLength 1`. -/
theorem c9_failure_modes_witness :
    (paramCtor false 1 Heap.empty = .error .OutOfMemory ∨
     convCtor false 0 Heap.empty = .error .OutOfMemory ∨
     copyCtor false { data := none, size := 0 } Heap.empty = .error .OutOfMemory ∨
     copyAssign false false { data := none, size := 0 } { data := none, size := 0 }
       Heap.empty = .error .OutOfMemory) ∧
    (Err.OutOfMemory = .OutOfMemory ∧ false = false ∧
     opOk (paramCtor true 1 Heap.empty) = true ∧
     opOk (convCtor true 0 Heap.empty) = true ∧
     opOk (copyCtor true { data := none, size := 0 } Heap.empty) = true ∧
     opOk (copyAssign true false { data := none, size := 0 }
       { data := none, size := 0 } Heap.empty) = true) :=
  ⟨Or.inl rfl,
    c9_failure_modes false false 1 0 { data := none, size := 0 }
      { data := none, size := 0 } Heap.empty .OutOfMemory (Or.inl rfl)⟩
